import Mathlib

/-!
Shallow embedding of the starship context-scan and module-activation engine:
`src/command.rs`, `src/modules/python.rs`, `src/modules/battery.rs`, together
with theorems settling the specification claims about them.

Modelling conventions:
* external effects (process spawning, live environment-variable reads, battery
  sensors) are passed to the embedded functions as explicit arguments, so the
  embedded functions are pure images of the Rust functions;
* `f32` quantities (battery energies, percentages) are modelled as exact
  rationals `ℚ`; `f32::round` (round half away from zero) is `rustRound`;
* Rust `Option`/`Result` become Lean `Option`/`Except`; an `expect` panic is
  modelled as `none` (the claims only concern non-panicking inputs);
* collaborator types whose source is not part of the repository snapshot
  (Context / directory scanner, Module, Segment, per-module configs, the
  `battery` crate's `State`) are modelled from the spec, marked as such.
-/

namespace Starship

/-- Modelled from the spec: a visual style (`ansi_term::Style` in the source,
an external collaborator). The engine only stores and forwards styles, so the
payload is opaque data. -/
structure Style where
  id : ℕ
deriving DecidableEq, Repr

/-- Modelled from the spec: a segment's configured text plus an optional style
override (`SegmentConfig` from the segment/config collaborator). -/
structure SegmentConfig where
  value : String
  style : Option Style
deriving DecidableEq, Repr

/-- Modelled from the spec: atomic styled text unit — key identifying the
semantic role, literal value, optional style override. -/
structure Segment where
  key : String
  value : String
  style : Option Style
deriving DecidableEq, Repr

/-- Modelled from the spec: one render unit — stable name, default style,
a prefix decoration value, and the ordered segment sequence (insertion
order = display order). `src/module.rs` is not in the snapshot. -/
structure Module where
  name : String
  style : Style
  prefixValue : String
  segments : List Segment
deriving DecidableEq, Repr

/-- Modelled from the spec: `module.create_segment(key, cfg)` appends a segment
built from a `SegmentConfig` to the module's segment list. -/
def createSegment (m : Module) (key : String) (cfg : SegmentConfig) : Module :=
  { m with segments := m.segments ++ [{ key := key, value := cfg.value, style := cfg.style }] }

/-- Modelled from the spec: the default style a freshly created module carries
before `set_style` is called (opaque; claims never depend on its identity). -/
def defaultStyle : Style := ⟨0⟩

/-- Modelled from the spec: the default prefix decoration of a new module
(claims never depend on its identity). -/
def defaultPrefixValue : String := "via "

/-- Live process environment: `std::env::var(name)`, with `Err` mapped to
`none`. Passed explicitly because the Rust modules read the live environment. -/
def Env : Type := String → Option String

/-- Result-level model of `crate::command::execute`: maps a command line to the
captured stdout, `none` on any failure. The byte-level contract of `execute`
itself is verified separately below. -/
def Exec : Type := String → Option String

namespace battery

/-- The five variants of the `battery` crate's `battery::State` enum (the enum
is `non_exhaustive` in the crate; these are all the variants it defines). -/
inductive State where
  | Unknown
  | Charging
  | Discharging
  | Empty
  | Full
deriving DecidableEq, Repr, Fintype

/-- `merge_battery_state` from `src/modules/battery.rs`: equal states merge to
themselves; otherwise Discharging beats everything, then Charging, and any
remaining mixture is Unknown. -/
def merge_battery_state (left right : State) : State :=
  if left = right then
    left
  else
    match left, right with
    | _, State.Discharging | State.Discharging, _ => State.Discharging
    | State.Charging, _ | _, State.Charging => State.Charging
    | _, _ => State.Unknown

end battery

/-- Helper for `split_command`: split a character list at the first space,
returning the parts before and after it; `none` when no space occurs.
This is exactly what `command.splitn(2, ' ')` yields: the fragment before the
first space and the remainder (which may itself contain spaces). -/
def splitFirstSpace : List Char → Option (List Char × List Char)
  | [] => none
  | c :: rest =>
    if c = ' ' then some ([], rest)
    else (splitFirstSpace rest).map (fun p => (c :: p.1, p.2))

/-- `split_command` from `src/command.rs`: `command.splitn(2, ' ')` with
`binary = first fragment`, `arg = remainder`. The source calls
`.expect("arg missing")`, which panics when the command holds no space; the
panic is modelled as `none` (the claims only concern commands with a space). -/
def split_command (command : String) : Option (String × String) :=
  (splitFirstSpace command.toList).map (fun p => (String.mk p.1, String.mk p.2))

/-- `execute` from `src/command.rs` (the non-test variant): split the command,
spawn the binary with the single argument, and decode captured stdout as
UTF-8. The OS interaction `Command::new(binary).arg(arg).output()` is passed
in as `spawn`, returning the raw stdout bytes on success and `none` when the
binary is missing or spawning fails; `String::from_utf8(...).ok()` is
`String.fromUTF8?`. -/
def execute (spawn : String → String → Option ByteArray) (command : String) :
    Option String :=
  match split_command command with
  | none => none
  | some (binary, arg) => (spawn binary arg).bind (fun output => String.fromUTF8? output)

/-- Code points with the Unicode White_Space property, which is what Rust's
`char::is_whitespace` (hence `str::trim`) tests. -/
def rustWhitespace : List ℕ :=
  [0x9, 0xA, 0xB, 0xC, 0xD, 0x20, 0x85, 0xA0, 0x1680,
   0x2000, 0x2001, 0x2002, 0x2003, 0x2004, 0x2005, 0x2006, 0x2007, 0x2008,
   0x2009, 0x200A, 0x2028, 0x2029, 0x202F, 0x205F, 0x3000]

/-- Rust `char::is_whitespace`. -/
def isRustWhitespace (c : Char) : Bool :=
  rustWhitespace.contains c.toNat

/-- Rust `str::trim` on a character list: drop whitespace from both ends. -/
def trimChars (s : List Char) : List Char :=
  ((s.dropWhile isRustWhitespace).reverse.dropWhile isRustWhitespace).reverse

/-- Rust `str::trim` as a String operation. -/
def trimString (s : String) : String :=
  String.mk (trimChars s.toList)

/-- Fuelled worker for `str::trim_start_matches`: repeatedly strip the pattern
while it is a prefix. Fuel `s.length` is enough, since each step removes at
least one character (the pattern is nonempty when a step fires). -/
def trimStartMatchesAux (pat : List Char) : ℕ → List Char → List Char
  | 0, s => s
  | n + 1, s =>
    if !pat.isEmpty && pat.isPrefixOf s then
      trimStartMatchesAux pat n (s.drop pat.length)
    else s

/-- Rust `str::trim_start_matches(pat)`: remove every leading repetition of
the pattern. -/
def trimStartMatches (pat : List Char) (s : List Char) : List Char :=
  trimStartMatchesAux pat s.length s

namespace python

/-- `format_python_version` from `src/modules/python.rs`:
`format!("v{}", python_stdout.trim_start_matches("Python ").trim())`. -/
def format_python_version (python_stdout : String) : String :=
  "v" ++ String.mk (trimChars (trimStartMatches "Python ".toList python_stdout.toList))

end python

/-- Modelled from the spec: one logical read of a directory's entries — the
set of entry base names and the set of entry extension suffixes
(`src/context.rs` is not in the snapshot). -/
structure DirScan where
  fileNames : List String
  extensions : List String
deriving DecidableEq, Repr

/-- Modelled from the spec: the scanner's
`set_files(files).set_extensions(exts).is_match()` query — true if the
directory holds at least one entry whose base name is in the filename set or
whose extension is in the extension set. -/
def DirScan.isMatch (scan : DirScan) (files exts : List String) : Bool :=
  scan.fileNames.any files.contains || scan.extensions.any exts.contains

/-- Modelled from the spec: the per-render Context, reduced to the field the
claims exercise — the result of `try_begin_scan()` for the target directory
(`none` when the scan cannot begin). The environment is NOT part of this
record, because the source modules read `std::env::var` live. -/
structure Context where
  scan : Option DirScan
deriving DecidableEq, Repr

/-- Split a character list on the path separator. -/
def splitSlash : List Char → List (List Char)
  | [] => [[]]
  | c :: rest =>
    if c = '/' then [] :: splitSlash rest
    else
      match splitSlash rest with
      | h :: t => (c :: h) :: t
      | [] => [[c]]

/-- Modelled from `std::path::Path::file_name` (Unix): the last non-empty,
non-"." component of the path; `none` for an empty path or one terminating
in "..". -/
def pathFileName (p : String) : Option String :=
  let comps := (splitSlash p.toList).filter (fun c => !c.isEmpty && c ≠ ['.'])
  match comps.getLast? with
  | some c => if c = ['.', '.'] then none else some (String.mk c)
  | none => none

namespace python

/-- The filename set `module` passes to `set_files` in
`src/modules/python.rs`. -/
def project_files : List String :=
  ["requirements.txt", ".python-version", "pyproject.toml", "Pipfile", "tox.ini"]

/-- Modelled from the spec: `PythonConfig` (its source under `src/configs/` is
not in the snapshot) — the fields `module` reads: symbol segment, module
style, the `pyenv_version_name` switch and the pyenv prefix segment. -/
structure PythonConfig where
  symbol : SegmentConfig
  style : Style
  pyenv_version_name : Bool
  pyenvPrefix : SegmentConfig
deriving DecidableEq, Repr

/-- `get_pyenv_version` from `src/modules/python.rs`. -/
def get_pyenv_version (exec : Exec) : Option String :=
  exec "pyenv version-name"

/-- `get_python_version` from `src/modules/python.rs`. -/
def get_python_version (exec : Exec) : Option String :=
  exec "python --version"

/-- `get_python_virtual_env` from `src/modules/python.rs`:
`env::var("VIRTUAL_ENV").ok().and_then(|venv| Path::new(&venv).file_name()...)`. -/
def get_python_virtual_env (env : Env) : Option String :=
  (env "VIRTUAL_ENV").bind pathFileName

/-- `module` from `src/modules/python.rs`. The live environment, the command
runner and the loaded config are explicit arguments; every `?` of the source
is a `none`-propagating match. -/
def module (ctx : Context) (env : Env) (exec : Exec) (config : PythonConfig) :
    Option Module :=
  match ctx.scan with
  | none => none
  | some scan =>
    let is_py_project := DirScan.isMatch scan project_files ["py"]
    let is_venv := (env "VIRTUAL_ENV").isSome
    if !is_py_project && !is_venv then
      none
    else
      let m : Module :=
        { name := "python", style := config.style,
          prefixValue := defaultPrefixValue, segments := [] }
      let m := createSegment m "symbol" config.symbol
      if config.pyenv_version_name then
        match get_pyenv_version exec with
        | none => none
        | some python_version =>
          let m := createSegment m "pyenv_prefix" config.pyenvPrefix
          some (createSegment m "version" ⟨trimString python_version, none⟩)
      else
        match get_python_version exec with
        | none => none
        | some python_version =>
          let formatted_version := format_python_version python_version
          let m := createSegment m "version" ⟨formatted_version, none⟩
          match get_python_virtual_env env with
          | some virtual_env =>
            some (createSegment m "virtualenv" ⟨" (" ++ virtual_env ++ ")", none⟩)
          | none => some m

end python

/-- Rust `f32::round` (round half away from zero), on the exact rationals
that model `f32` values. -/
def rustRound (q : ℚ) : ℤ :=
  if 0 ≤ q then ⌊q + 1 / 2⌋ else -⌊-q + 1 / 2⌋

namespace battery

/-- One successfully read battery of the `battery` crate: the `energy()`,
`energy_full()` and `state()` observations `sum_batteries` consumes
(energies modelled as exact rationals). -/
structure Battery where
  energy : ℚ
  energy_full : ℚ
  state : State
deriving DecidableEq, Repr

/-- `BatterySum` from `src/modules/battery.rs`. -/
structure BatterySum where
  energy : ℚ
  energy_full : ℚ
  state : State
deriving DecidableEq, Repr

/-- `BatteryStatus` from `src/modules/battery.rs`. -/
structure BatteryStatus where
  percentage : ℚ
  state : State
deriving DecidableEq, Repr

/-- `sum_batteries` from `src/modules/battery.rs`: fold over the battery
iterator, skipping erroring sources and merging energies and states; `none`
when no battery was successfully read. -/
def sum_batteries (batteries : List (Except String Battery)) : Option BatterySum :=
  batteries.foldl
    (fun sum b =>
      match b with
      | Except.ok battery =>
        match sum with
        | some sum =>
          some { energy := sum.energy + battery.energy,
                 energy_full := sum.energy_full + battery.energy_full,
                 state := merge_battery_state sum.state battery.state }
        | none =>
          some { energy := battery.energy,
                 energy_full := battery.energy_full,
                 state := battery.state }
      | Except.error _ => sum)
    none

/-- `get_battery_status` from `src/modules/battery.rs`. The sensor access
(`battery::Manager::new()` plus `battery_manager.batteries()`) is passed in:
`none` models a failed manager or iterator, `some l` the read battery list
with per-battery results. -/
def get_battery_status (batteries : Option (List (Except String Battery))) :
    Option BatteryStatus :=
  match batteries with
  | none => none
  | some batteries =>
    match sum_batteries batteries with
    | some total =>
      if total.energy ≤ 0 then none
      else if total.energy_full ≤ 0 then none
      else some { percentage := total.energy / total.energy_full * 100,
                  state := total.state }
    | none => none

/-- Modelled from the spec: one `(threshold, style)` pair of the battery
display configuration; the source compares `percentage <= threshold as f32`,
so the threshold is an integer cast to the percentage's type. -/
structure BatteryDisplayStyle where
  threshold : ℤ
  style : Style
deriving DecidableEq, Repr

/-- Modelled from the spec: `BatteryConfig` (its source under `src/configs/`
is not in the snapshot) — the fields `module` reads. -/
structure BatteryConfig where
  full_symbol : SegmentConfig
  charging_symbol : SegmentConfig
  discharging_symbol : SegmentConfig
  unknown_symbol : Option SegmentConfig
  empty_symbol : Option SegmentConfig
  display : List BatteryDisplayStyle
  percentage : SegmentConfig
deriving DecidableEq, Repr

/-- The source's `display_styles.iter().find(|ds| percentage <= ds.threshold
as f32)`: first configured pair whose threshold is at least the (un-rounded)
percentage. -/
def findDisplayStyle (percentage : ℚ) :
    List BatteryDisplayStyle → Option BatteryDisplayStyle
  | [] => none
  | ds :: rest =>
    if percentage ≤ (ds.threshold : ℚ) then some ds
    else findDisplayStyle percentage rest

/-- Follows the spec's words for claim C3, for comparison with
`findDisplayStyle`: the first pair whose threshold is greater than or equal
to the percentage rounded to a whole number. -/
def specDisplayStyleRounded (percentage : ℚ) :
    List BatteryDisplayStyle → Option BatteryDisplayStyle
  | [] => none
  | ds :: rest =>
    if rustRound percentage ≤ ds.threshold then some ds
    else specDisplayStyleRounded percentage rest

/-- `module` from `src/modules/battery.rs`. The live environment and the
sensor readings are explicit arguments. The source's catch-all match arm
returning `None` exists because the crate's `State` is `non_exhaustive`; it
is unreachable for the five variants the crate defines, which `State`
models, so it has no image here. -/
def module (env : Env) (batteries : Option (List (Except String Battery)))
    (battery_config : BatteryConfig) : Option Module :=
  let shell := (env "STARSHIP_SHELL").getD ""
  let percentage_char :=
    if shell = "zsh" then "%%"
    else if shell = "powershell" then "`%"
    else "%"
  match get_battery_status batteries with
  | none => none
  | some status =>
    match findDisplayStyle status.percentage battery_config.display with
    | some display_style =>
      let m : Module :=
        { name := "battery", style := display_style.style,
          prefixValue := "", segments := [] }
      let m :=
        match status.state with
        | State.Full => createSegment m "full_symbol" battery_config.full_symbol
        | State.Charging =>
          createSegment m "charging_symbol" battery_config.charging_symbol
        | State.Discharging =>
          createSegment m "discharging_symbol" battery_config.discharging_symbol
        | State.Unknown =>
          match battery_config.unknown_symbol with
          | some unknown_symbol => createSegment m "unknown_symbol" unknown_symbol
          | none => m
        | State.Empty =>
          match battery_config.empty_symbol with
          | some empty_symbol => createSegment m "empty_symbol" empty_symbol
          | none => m
      let percent_string := toString (rustRound status.percentage) ++ percentage_char
      some (createSegment m "percentage"
        { battery_config.percentage with value := percent_string })
    | none => none

end battery

/-- A command containing a space always splits successfully (the `expect`
panic in `split_command` is unreachable on such inputs). -/
theorem splitFirstSpace_isSome (s : List Char) (h : ' ' ∈ s) :
    (splitFirstSpace s).isSome := by
  induction s with
  | nil => cases h
  | cons c rest ih =>
    by_cases hc : c = ' '
    · simp [splitFirstSpace, hc]
    · have hmem : ' ' ∈ rest := by
        rcases List.mem_cons.mp h with h1 | h1
        · exact absurd h1.symm hc
        · exact h1
      simp [splitFirstSpace, hc, Option.isSome_map, ih hmem]

/-- Claim C9: for every command of the form "binary arg" (at least one space),
`execute` never panics: the command splits into binary and argument, and the
result is `none` exactly when spawning fails or the captured stdout is not
valid UTF-8, and otherwise `some` of the decoded stdout. -/
theorem execute_error_containment
    (spawn : String → String → Option ByteArray) (command : String)
    (h : ' ' ∈ command.toList) :
    ∃ binary arg,
      split_command command = some (binary, arg) ∧
      (spawn binary arg = none → execute spawn command = none) ∧
      (∀ out, spawn binary arg = some out → String.fromUTF8? out = none →
        execute spawn command = none) ∧
      (∀ out s, spawn binary arg = some out → String.fromUTF8? out = some s →
        execute spawn command = some s) := by
  obtain ⟨p, hp⟩ := Option.isSome_iff_exists.mp (splitFirstSpace_isSome command.toList h)
  obtain ⟨a, b⟩ := p
  have hsplit : split_command command = some (String.mk a, String.mk b) := by
    unfold split_command
    rw [hp]
    rfl
  refine ⟨String.mk a, String.mk b, hsplit, ?_, ?_, ?_⟩
  · intro hspawn
    simp [execute, hsplit, hspawn]
  · intro out hspawn hdec
    simp [execute, hsplit, hspawn, hdec]
  · intro out s hspawn hdec
    simp [execute, hsplit, hspawn, hdec]

/-- Witness for C9: the containment theorem applied to the concrete command
"python --version" under a spawner that always fails. -/
theorem execute_error_containment_witness :
    ∃ binary arg,
      split_command "python --version" = some (binary, arg) ∧
      ((fun _ _ => none : String → String → Option ByteArray) binary arg = none →
        execute (fun _ _ => none) "python --version" = none) ∧
      (∀ out, (fun _ _ => none : String → String → Option ByteArray) binary arg = some out →
        String.fromUTF8? out = none →
        execute (fun _ _ => none) "python --version" = none) ∧
      (∀ out s, (fun _ _ => none : String → String → Option ByteArray) binary arg = some out →
        String.fromUTF8? out = some s →
        execute (fun _ _ => none) "python --version" = some s) :=
  execute_error_containment (fun _ _ => none) "python --version" (by decide)

/-- Claim C8: the Python version formatter strips the leading literal
"Python " and surrounding whitespace and adds a "v" in front:
both spec examples evaluate as stated. -/
theorem format_python_version_examples :
    python.format_python_version "Python 3.7.2" = "v3.7.2" ∧
    python.format_python_version "Python   3.10.0" = "v3.10.0" := by
  constructor <;> rfl

/-- Claim C1 counterexample: a directory containing `requirements.txt` passes
the presence gate, yet when the interpreter probe returns nothing (and pyenv
mode is off) the Python module returns `none` — not an active module holding
only the symbol segment. -/
theorem python_symbol_only_counterexample :
    python.module ⟨some ⟨["requirements.txt"], []⟩⟩ (fun _ => none) (fun _ => none)
      ⟨⟨"sym", none⟩, ⟨1⟩, false, ⟨"pyenv ", none⟩⟩ = none := by
  decide

/-- Claim C1 (amended): for every context whose directory scan matches the
presence gate and in which the Python interpreter probe returns nothing (with
`pyenv_version_name` off), the module function returns `none` — the whole
module deactivates instead of activating with only the symbol segment. -/
theorem python_probe_failure_deactivates
    (ctx : Context) (env : Env) (exec : Exec) (config : python.PythonConfig)
    (scan : DirScan) (hscan : ctx.scan = some scan)
    (hmatch : DirScan.isMatch scan python.project_files ["py"] = true)
    (hpyenv : config.pyenv_version_name = false)
    (hprobe : exec "python --version" = none) :
    python.module ctx env exec config = none := by
  unfold python.module
  rw [hscan]
  simp [hmatch, hpyenv, python.get_python_version, hprobe]

/-- Witness for C1 (amended): the deactivation theorem applied to a concrete
directory containing `.python-version` with a probe that finds nothing. -/
theorem python_probe_failure_deactivates_witness :
    python.module ⟨some ⟨[".python-version"], []⟩⟩ (fun _ => none) (fun _ => none)
      ⟨⟨"sym", none⟩, ⟨1⟩, false, ⟨"pyenv ", none⟩⟩ = none :=
  python_probe_failure_deactivates _ _ _ _ ⟨[".python-version"], []⟩ rfl
    (by decide) rfl rfl

/-- Claim C2: whenever the presence gate passes but the selected version
probe (pyenv version-name in pyenv mode, python --version otherwise) returns
`none`, the whole Python module deactivates, producing no segments at all. -/
theorem python_any_probe_failure_returns_none
    (ctx : Context) (env : Env) (exec : Exec) (config : python.PythonConfig)
    (scan : DirScan) (hscan : ctx.scan = some scan)
    (hgate : (DirScan.isMatch scan python.project_files ["py"] ||
      (env "VIRTUAL_ENV").isSome) = true)
    (hprobe : (if config.pyenv_version_name then exec "pyenv version-name"
      else exec "python --version") = none) :
    python.module ctx env exec config = none := by
  unfold python.module
  rw [hscan]
  cases hb : config.pyenv_version_name <;> rw [hb] at hprobe <;>
    simp at hprobe <;>
    simp [python.get_python_version, python.get_pyenv_version, hprobe]

/-- Witness for C2: the deactivation theorem applied to a concrete context in
pyenv mode whose pyenv probe finds nothing. -/
theorem python_any_probe_failure_returns_none_witness :
    python.module ⟨some ⟨["requirements.txt"], []⟩⟩ (fun _ => none) (fun _ => none)
      ⟨⟨"sym", none⟩, ⟨1⟩, true, ⟨"pyenv ", none⟩⟩ = none :=
  python_any_probe_failure_returns_none _ _ _ _ ⟨["requirements.txt"], []⟩ rfl
    (by decide) (by decide)

/-- Claim C4 counterexample: the module functions read the live process
environment, not a Context snapshot: two runs of the Python module with the
identical Context (and identical command runner and config) differ when the
live `VIRTUAL_ENV` differs. -/
theorem module_env_snapshot_counterexample :
    python.module ⟨some ⟨[], []⟩⟩ (fun _ => none)
        (fun c => if c = "python --version" then some "Python 3.7.4" else none)
        ⟨⟨"sym", none⟩, ⟨1⟩, false, ⟨"pyenv ", none⟩⟩ ≠
      python.module ⟨some ⟨[], []⟩⟩
        (fun v => if v = "VIRTUAL_ENV" then some "/foo/my_venv" else none)
        (fun c => if c = "python --version" then some "Python 3.7.4" else none)
        ⟨⟨"sym", none⟩, ⟨1⟩, false, ⟨"pyenv ", none⟩⟩ := by
  decide

/-- Claim C4 (amended): the module functions do read the live environment at
call time, but each depends only on its declared variable: the Python module
only on `VIRTUAL_ENV` and the battery module only on `STARSHIP_SHELL` — two
live environments agreeing on that variable give identical results. -/
theorem module_env_reads_only_declared_vars :
    (∀ (ctx : Context) (exec : Exec) (config : python.PythonConfig)
      (env1 env2 : Env), env1 "VIRTUAL_ENV" = env2 "VIRTUAL_ENV" →
      python.module ctx env1 exec config = python.module ctx env2 exec config) ∧
    (∀ (batteries : Option (List (Except String battery.Battery)))
      (config : battery.BatteryConfig) (env1 env2 : Env),
      env1 "STARSHIP_SHELL" = env2 "STARSHIP_SHELL" →
      battery.module env1 batteries config = battery.module env2 batteries config) := by
  constructor
  · intro ctx exec config env1 env2 h
    unfold python.module python.get_python_virtual_env
    rw [h]
  · intro batteries config env1 env2 h
    unfold battery.module
    rw [h]

/-- Witness for C4 (amended): two distinct live environments that agree on
the declared variables give the same module results. -/
theorem module_env_reads_only_declared_vars_witness :
    (python.module ⟨some ⟨[], []⟩⟩ (fun v => if v = "HOME" then some "/root" else none)
        (fun _ => none) ⟨⟨"sym", none⟩, ⟨1⟩, false, ⟨"pyenv ", none⟩⟩ =
      python.module ⟨some ⟨[], []⟩⟩ (fun _ => none)
        (fun _ => none) ⟨⟨"sym", none⟩, ⟨1⟩, false, ⟨"pyenv ", none⟩⟩) ∧
    (battery.module (fun v => if v = "HOME" then some "/root" else none) none
        ⟨⟨"F", none⟩, ⟨"C", none⟩, ⟨"D", none⟩, none, none, [], ⟨"P", none⟩⟩ =
      battery.module (fun _ => none) none
        ⟨⟨"F", none⟩, ⟨"C", none⟩, ⟨"D", none⟩, none, none, [], ⟨"P", none⟩⟩) :=
  ⟨module_env_reads_only_declared_vars.1 _ _ _ _ _ (by decide),
   module_env_reads_only_declared_vars.2 _ _ _ _ (by decide)⟩

/-- Claim C5: the battery state merge follows the strict precedence exactly:
merging with Discharging always yields Discharging; for states other than
Discharging, merging with Charging yields Charging; and among Full, Empty and
Unknown, equal states merge to themselves while distinct ones merge to
Unknown. -/
theorem merge_battery_state_precedence :
    (∀ x : battery.State,
      battery.merge_battery_state x battery.State.Discharging = battery.State.Discharging ∧
      battery.merge_battery_state battery.State.Discharging x = battery.State.Discharging) ∧
    (∀ x : battery.State, x ≠ battery.State.Discharging →
      battery.merge_battery_state x battery.State.Charging = battery.State.Charging ∧
      battery.merge_battery_state battery.State.Charging x = battery.State.Charging) ∧
    (∀ x y : battery.State,
      x ≠ battery.State.Discharging → x ≠ battery.State.Charging →
      y ≠ battery.State.Discharging → y ≠ battery.State.Charging →
      (x = y → battery.merge_battery_state x y = x) ∧
      (x ≠ y → battery.merge_battery_state x y = battery.State.Unknown)) := by
  decide

/-- Witness for C5: the precedence theorem applied at concrete states. -/
theorem merge_battery_state_precedence_witness :
    battery.merge_battery_state battery.State.Full battery.State.Discharging =
      battery.State.Discharging ∧
    battery.merge_battery_state battery.State.Full battery.State.Charging =
      battery.State.Charging ∧
    battery.merge_battery_state battery.State.Full battery.State.Empty =
      battery.State.Unknown :=
  ⟨(merge_battery_state_precedence.1 battery.State.Full).1,
   (merge_battery_state_precedence.2.1 battery.State.Full (by decide)).1,
   (merge_battery_state_precedence.2.2 battery.State.Full battery.State.Empty
      (by decide) (by decide) (by decide) (by decide)).2 (by decide)⟩

/-- Claim C6: the battery state merge is commutative. -/
theorem merge_battery_state_comm :
    ∀ a b : battery.State,
      battery.merge_battery_state a b = battery.merge_battery_state b a := by
  decide

/-- When every battery source errors, the fold of `sum_batteries` never
leaves the `none` accumulator. -/
theorem sum_batteries_all_errors :
    ∀ l : List (Except String battery.Battery),
      (∀ b ∈ l, ∃ e, b = Except.error e) → battery.sum_batteries l = none := by
  intro l
  induction l with
  | nil => intro _; rfl
  | cons b rest ih =>
    intro h
    obtain ⟨e, rfl⟩ := h b (List.mem_cons_self b rest)
    show battery.sum_batteries rest = none
    exact ih (fun b hb => h b (List.mem_cons_of_mem _ hb))

/-- A successfully computed battery status always carries a strictly positive
percentage: `get_battery_status` rejects non-positive total energy and
capacity before dividing. -/
theorem get_battery_status_pos
    (batteries : Option (List (Except String battery.Battery)))
    (status : battery.BatteryStatus)
    (h : battery.get_battery_status batteries = some status) :
    0 < status.percentage := by
  cases batteries with
  | none => simp [battery.get_battery_status] at h
  | some l =>
    simp only [battery.get_battery_status] at h
    split at h
    next total hsum =>
      split_ifs at h with h1 h2
      obtain rfl := (Option.some.inj h).symm
      have he : 0 < total.energy := lt_of_not_le h1
      have hf : 0 < total.energy_full := lt_of_not_le h2
      exact mul_pos (div_pos he hf) (by norm_num)
    next hsum => simp at h

/-- An active battery module's style is the one found by the source's
display-style search on the exact percentage. -/
theorem battery_module_style (env : Env)
    (batteries : Option (List (Except String battery.Battery)))
    (config : battery.BatteryConfig) (m : Module)
    (h : battery.module env batteries config = some m) :
    ∃ status ds, battery.get_battery_status batteries = some status ∧
      battery.findDisplayStyle status.percentage config.display = some ds ∧
      m.style = ds.style := by
  simp only [battery.module] at h
  split at h
  next hst => simp at h
  next status hst =>
    split at h
    next ds hfd =>
      refine ⟨status, ds, hst, hfd, ?_⟩
      have hm := Option.some.inj h
      rw [← hm]
      cases status.state
      case Full => simp [createSegment]
      case Charging => simp [createSegment]
      case Discharging => simp [createSegment]
      case Unknown => cases config.unknown_symbol <;> simp [createSegment]
      case Empty => cases config.empty_symbol <;> simp [createSegment]
    next hfd => simp at h

/-- When the percentage lies strictly above every configured threshold, the
display-style search finds nothing. -/
theorem findDisplayStyle_none (p : ℚ) :
    ∀ l : List battery.BatteryDisplayStyle,
      (∀ ds ∈ l, (ds.threshold : ℚ) < p) → battery.findDisplayStyle p l = none := by
  intro l
  induction l with
  | nil => intro _; rfl
  | cons a rest ih =>
    intro h
    have ha := h a (List.mem_cons_self a rest)
    show (if p ≤ (a.threshold : ℚ) then some a else battery.findDisplayStyle p rest) = none
    rw [if_neg (not_le.mpr ha)]
    exact ih (fun d hd => h d (List.mem_cons_of_mem _ hd))

/-- The display-style search returns the FIRST pair whose threshold is at
least the percentage: every earlier pair's threshold lies strictly below it. -/
theorem findDisplayStyle_first (p : ℚ) :
    ∀ (l : List battery.BatteryDisplayStyle) ds,
      battery.findDisplayStyle p l = some ds →
      ∃ l1 l2, l = l1 ++ ds :: l2 ∧ (∀ d ∈ l1, ¬p ≤ (d.threshold : ℚ)) ∧
        p ≤ (ds.threshold : ℚ) := by
  intro l
  induction l with
  | nil => intro ds h; exact absurd h (by simp [battery.findDisplayStyle])
  | cons a rest ih =>
    intro ds h
    have h' : (if p ≤ (a.threshold : ℚ) then some a
        else battery.findDisplayStyle p rest) = some ds := h
    by_cases hc : p ≤ (a.threshold : ℚ)
    · rw [if_pos hc] at h'
      obtain rfl := Option.some.inj h'
      exact ⟨[], rest, by simp, by simp, hc⟩
    · rw [if_neg hc] at h'
      obtain ⟨l1, l2, heq, h1, h2⟩ := ih ds h'
      refine ⟨a :: l1, l2, by simp [heq], ?_, h2⟩
      intro d hd
      rcases List.mem_cons.mp hd with rfl | hd
      · exact hc
      · exact h1 d hd

/-- One fully concrete battery module run: a single healthy battery at 50%,
discharging, with one configured display pair at threshold 80, renders the
discharging symbol and the "50%" percentage segment with style 3. -/
theorem battery_module_concrete_run :
    battery.module (fun _ => none)
      (some [Except.ok ⟨50, 100, battery.State.Discharging⟩])
      ⟨⟨"F", none⟩, ⟨"C", none⟩, ⟨"D", none⟩, none, none, [⟨80, ⟨3⟩⟩], ⟨"P", none⟩⟩ =
    some ⟨"battery", ⟨3⟩, "",
      [⟨"discharging_symbol", "D", none⟩, ⟨"percentage", "50%", none⟩]⟩ := by
  have hsum : battery.sum_batteries [Except.ok ⟨50, 100, battery.State.Discharging⟩] =
      some ⟨50, 100, battery.State.Discharging⟩ := rfl
  have hst : battery.get_battery_status
      (some [Except.ok ⟨50, 100, battery.State.Discharging⟩]) =
      some ⟨50, battery.State.Discharging⟩ := by
    simp only [battery.get_battery_status, hsum]
    rw [if_neg (by norm_num), if_neg (by norm_num)]
    norm_num
  have hfd : battery.findDisplayStyle 50 [⟨80, ⟨3⟩⟩] = some ⟨80, ⟨3⟩⟩ := by
    simp only [battery.findDisplayStyle]
    rw [if_pos (by norm_num)]
  have hround : rustRound 50 = 50 := by
    unfold rustRound
    rw [if_pos (by norm_num)]
    norm_num
  simp only [battery.module, hst, hfd, hround]
  decide

/-- Claim C3 counterexample: with one battery at exactly 10.4% and a single
display pair at threshold 10, the source compares the un-rounded percentage
(10.4 ≤ 10 fails, module inactive), while selecting by the rounded
percentage (round(10.4) = 10 ≤ 10) would pick that pair's style. -/
theorem battery_style_rounding_counterexample :
    battery.module (fun _ => none) (some [Except.ok ⟨13, 125, battery.State.Full⟩])
      ⟨⟨"F", none⟩, ⟨"C", none⟩, ⟨"D", none⟩, none, none, [⟨10, ⟨7⟩⟩], ⟨"P", none⟩⟩ =
      none ∧
    battery.specDisplayStyleRounded (13 / 125 * 100) [⟨10, ⟨7⟩⟩] = some ⟨10, ⟨7⟩⟩ := by
  constructor
  · have hsum : battery.sum_batteries [Except.ok ⟨13, 125, battery.State.Full⟩] =
        some ⟨13, 125, battery.State.Full⟩ := rfl
    have hst : battery.get_battery_status (some [Except.ok ⟨13, 125, battery.State.Full⟩]) =
        some ⟨13 / 125 * 100, battery.State.Full⟩ := by
      simp only [battery.get_battery_status, hsum]
      rw [if_neg (by norm_num), if_neg (by norm_num)]
    have hfd : battery.findDisplayStyle (13 / 125 * 100) [⟨10, ⟨7⟩⟩] = none := by
      simp only [battery.findDisplayStyle]
      rw [if_neg (by norm_num)]
    simp [battery.module, hst, hfd]
  · have hround : rustRound (13 / 125 * 100) = 10 := by
      unfold rustRound
      rw [if_pos (by norm_num)]
      norm_num
    simp only [battery.specDisplayStyleRounded]
    rw [if_pos hround.le]

/-- Claim C3 (amended): for an active battery module, the applied style is
that of the first configured pair whose threshold is greater than or equal
to the EXACT percentage (before rounding): every earlier pair's threshold
lies strictly below the percentage. -/
theorem battery_style_first_threshold_ge_exact_percentage
    (env : Env) (batteries : Option (List (Except String battery.Battery)))
    (config : battery.BatteryConfig) (m : Module)
    (h : battery.module env batteries config = some m) :
    ∃ status ds l1 l2,
      battery.get_battery_status batteries = some status ∧
      config.display = l1 ++ ds :: l2 ∧
      (∀ d ∈ l1, ¬status.percentage ≤ (d.threshold : ℚ)) ∧
      status.percentage ≤ (ds.threshold : ℚ) ∧
      m.style = ds.style := by
  obtain ⟨status, ds, hst, hfd, hstyle⟩ := battery_module_style env batteries config m h
  obtain ⟨l1, l2, heq, h1, h2⟩ :=
    findDisplayStyle_first status.percentage config.display ds hfd
  exact ⟨status, ds, l1, l2, hst, heq, h1, h2, hstyle⟩

/-- Witness for C3 (amended): the style theorem applied to the concrete
50%-discharging run. -/
theorem battery_style_first_threshold_witness :
    ∃ status ds l1 l2,
      battery.get_battery_status
        (some [Except.ok ⟨50, 100, battery.State.Discharging⟩]) = some status ∧
      ([⟨80, ⟨3⟩⟩] : List battery.BatteryDisplayStyle) = l1 ++ ds :: l2 ∧
      (∀ d ∈ l1, ¬status.percentage ≤ (d.threshold : ℚ)) ∧
      status.percentage ≤ (ds.threshold : ℚ) ∧
      (⟨"battery", ⟨3⟩, "",
        [⟨"discharging_symbol", "D", none⟩, ⟨"percentage", "50%", none⟩]⟩ : Module).style =
        ds.style :=
  battery_style_first_threshold_ge_exact_percentage _ _ _ _ battery_module_concrete_run

/-- Claim C7: the battery module is inactive whenever no usable battery data
exists — failed sensor access, zero successfully read batteries, or
non-positive total energy or capacity — and an active module always rests on
a strictly positive computed percentage (so no zero percentage and no
division by zero). -/
theorem battery_inactive_without_usable_data :
    (∀ (env : Env) (config : battery.BatteryConfig),
      battery.module env none config = none) ∧
    (∀ (env : Env) (config : battery.BatteryConfig)
      (l : List (Except String battery.Battery)),
      (∀ b ∈ l, ∃ e, b = Except.error e) →
      battery.module env (some l) config = none) ∧
    (∀ (env : Env) (config : battery.BatteryConfig)
      (l : List (Except String battery.Battery)) (total : battery.BatterySum),
      battery.sum_batteries l = some total → total.energy ≤ 0 →
      battery.module env (some l) config = none) ∧
    (∀ (env : Env) (config : battery.BatteryConfig)
      (l : List (Except String battery.Battery)) (total : battery.BatterySum),
      battery.sum_batteries l = some total → total.energy_full ≤ 0 →
      battery.module env (some l) config = none) ∧
    (∀ (env : Env) (batteries : Option (List (Except String battery.Battery)))
      (config : battery.BatteryConfig) (m : Module),
      battery.module env batteries config = some m →
      ∃ status, battery.get_battery_status batteries = some status ∧
        0 < status.percentage) := by
  refine ⟨?_, ?_, ?_, ?_, ?_⟩
  · intro env config
    rfl
  · intro env config l h
    have hsum := sum_batteries_all_errors l h
    simp [battery.module, battery.get_battery_status, hsum]
  · intro env config l total hsum he
    simp [battery.module, battery.get_battery_status, hsum, he]
  · intro env config l total hsum he
    simp [battery.module, battery.get_battery_status, hsum, he]
  · intro env batteries config m h
    obtain ⟨status, _, hst, _, _⟩ := battery_module_style env batteries config m h
    exact ⟨status, hst, get_battery_status_pos batteries status hst⟩

/-- Witness for C7: a run where the only source errors, a run with zero total
energy, and the positive percentage of the concrete 50% run. -/
theorem battery_inactive_without_usable_data_witness :
    battery.module (fun _ => none) (some [Except.error "nope"])
      ⟨⟨"F", none⟩, ⟨"C", none⟩, ⟨"D", none⟩, none, none, [⟨80, ⟨3⟩⟩], ⟨"P", none⟩⟩ =
      none ∧
    battery.module (fun _ => none) (some [Except.ok ⟨0, 100, battery.State.Full⟩])
      ⟨⟨"F", none⟩, ⟨"C", none⟩, ⟨"D", none⟩, none, none, [⟨80, ⟨3⟩⟩], ⟨"P", none⟩⟩ =
      none ∧
    ∃ status,
      battery.get_battery_status
        (some [Except.ok ⟨50, 100, battery.State.Discharging⟩]) = some status ∧
      0 < status.percentage :=
  ⟨battery_inactive_without_usable_data.2.1 _ _ _
      (fun b hb => ⟨"nope", by simpa using hb⟩),
   battery_inactive_without_usable_data.2.2.1 _ _ _
      ⟨0, 100, battery.State.Full⟩ rfl le_rfl,
   battery_inactive_without_usable_data.2.2.2.2 _ _ _ _ battery_module_concrete_run⟩

/-- Claim C10: when battery status is successfully computed but the
percentage lies strictly above every configured threshold (in particular
when the display list is empty), the module returns `none` rather than
rendering with a default style. -/
theorem battery_inactive_above_all_thresholds
    (env : Env) (batteries : Option (List (Except String battery.Battery)))
    (config : battery.BatteryConfig) (status : battery.BatteryStatus)
    (hst : battery.get_battery_status batteries = some status)
    (habove : ∀ ds ∈ config.display, (ds.threshold : ℚ) < status.percentage) :
    battery.module env batteries config = none := by
  have hfd := findDisplayStyle_none status.percentage config.display habove
  simp [battery.module, hst, hfd]

/-- Witness for C10: a healthy 50% battery with an empty display list leaves
the module inactive. -/
theorem battery_inactive_above_all_thresholds_witness :
    battery.module (fun _ => none) (some [Except.ok ⟨50, 100, battery.State.Full⟩])
      ⟨⟨"F", none⟩, ⟨"C", none⟩, ⟨"D", none⟩, none, none, [], ⟨"P", none⟩⟩ = none :=
  battery_inactive_above_all_thresholds _ _ _ ⟨50 / 100 * 100, battery.State.Full⟩
    (by
      have hsum : battery.sum_batteries [Except.ok ⟨50, 100, battery.State.Full⟩] =
          some ⟨50, 100, battery.State.Full⟩ := rfl
      simp only [battery.get_battery_status, hsum]
      rw [if_neg (by norm_num), if_neg (by norm_num)])
    (by simp)

end Starship
